import Mathlib

/-!
Shallow embedding of the USSD DeFi core contracts
(WalletRegistry, P2PTransfer, MicroLoan — Solidity 0.8) and proofs of the
spec's claims about them.

Modelling conventions:
* `bytes32` values (phone hashes, pin hashes) and `address` values are
  modelled as `Nat`; the zero value plays the role of `bytes32(0)` /
  `address(0)`.
* `uint256` quantities are modelled as `Nat`.  Solidity 0.8 checked
  arithmetic reverts on underflow, so every subtraction site of the source
  is preceded by an explicit guard returning the `panick` error (Solidity
  Panic 0x11).  Additions are modelled on unbounded `Nat`: all quantities
  involved are amounts of wei bounded far below `2^256` in any state the
  contracts can actually hold.
* Reverting calls are `Except.error`; at the trace level a failed call
  leaves the state unchanged (the transaction rolls back).
* External settlement calls (`wallet.call{value: ...}`) are assumed to
  succeed; on failure the whole call reverts, so the success path is the
  one specified.  Event emission and the `loansById`/`loanHistory`
  mirrors are not modelled: no claim references them.
-/

namespace Ussd

/-- Pointwise update of a map modelled as a function (a Solidity
`mapping` write). -/
def fset {α : Type} (f : Nat → α) (k : Nat) (v : α) : Nat → α :=
  fun x => if x = k then v else f x

@[simp] theorem fset_same {α : Type} (f : Nat → α) (k : Nat) (v : α) :
    fset f k v k = v := by
  simp [fset]

@[simp] theorem fset_apply {α : Type} (f : Nat → α) (k v' : Nat) (v : α) :
    fset f k v v' = if v' = k then v else f v' := by
  simp [fset]

/-! ## WalletRegistry (src/unnamed/part_003) -/

namespace WalletRegistry

/-- Errors of WalletRegistry. -/
inductive RegErr where
  | PhoneAlreadyRegistered
  | WalletAlreadyRegistered
  | InvalidWalletAddress
  | PhoneNotRegistered
  | InvalidPinHash
  deriving DecidableEq, Repr

/-- State of the WalletRegistry contract: the two directional mappings,
the pin hashes and the registration flags. -/
structure RegState where
  phoneToWallet : Nat → Nat
  walletToPhone : Nat → Nat
  phoneToPinHash : Nat → Nat
  isRegistered : Nat → Bool
  totalUsers : Nat

/-- The state right after the constructor ran: all mappings empty. -/
def regInit : RegState where
  phoneToWallet := fun _ => 0
  walletToPhone := fun _ => 0
  phoneToPinHash := fun _ => 0
  isRegistered := fun _ => false
  totalUsers := 0

/-- Solidity `registerWallet` (part_003 lines 105–122), for an authorized caller. -/
def registerWallet (s : RegState) (phoneHash wallet pinHash : Nat) :
    Except RegErr RegState :=
  if s.isRegistered phoneHash then .error .PhoneAlreadyRegistered
  else if wallet = 0 then .error .InvalidWalletAddress
  else if s.walletToPhone wallet ≠ 0 then .error .WalletAlreadyRegistered
  else if pinHash = 0 then .error .InvalidPinHash
  else .ok
    { phoneToWallet := fset s.phoneToWallet phoneHash wallet
      walletToPhone := fset s.walletToPhone wallet phoneHash
      phoneToPinHash := fset s.phoneToPinHash phoneHash pinHash
      isRegistered := fset s.isRegistered phoneHash true
      totalUsers := s.totalUsers + 1 }

/-- Solidity `updatePin` (part_003 lines 169–178), for an authorized caller. -/
def updatePin (s : RegState) (phoneHash newPinHash : Nat) :
    Except RegErr RegState :=
  if ¬ s.isRegistered phoneHash then .error .PhoneNotRegistered
  else if newPinHash = 0 then .error .InvalidPinHash
  else .ok { s with phoneToPinHash := fset s.phoneToPinHash phoneHash newPinHash }

/-- Solidity `updateWallet` (part_003 lines 186–204): wallet recovery, atomically
clears the old reverse mapping and sets the new one. -/
def updateWallet (s : RegState) (phoneHash newWallet : Nat) :
    Except RegErr RegState :=
  if ¬ s.isRegistered phoneHash then .error .PhoneNotRegistered
  else if newWallet = 0 then .error .InvalidWalletAddress
  else if s.walletToPhone newWallet ≠ 0 then .error .WalletAlreadyRegistered
  else
    let oldWallet := s.phoneToWallet phoneHash
    .ok { s with
      walletToPhone := fset (fset s.walletToPhone oldWallet 0) newWallet phoneHash
      phoneToWallet := fset s.phoneToWallet phoneHash newWallet }

/-- Solidity `getWallet` (resolve). -/
def getWallet (s : RegState) (phoneHash : Nat) : Nat :=
  s.phoneToWallet phoneHash

/-- Solidity `getPhoneHash` (reverseResolve). -/
def getPhoneHash (s : RegState) (wallet : Nat) : Nat :=
  s.walletToPhone wallet

/-- The registry calls a claim about sequences can make. -/
inductive RegOp where
  | register (phoneHash wallet pinHash : Nat)
  | update (phoneHash newWallet : Nat)
  | setPin (phoneHash newPinHash : Nat)
  deriving DecidableEq, Repr

instance : Inhabited RegOp := ⟨.setPin 0 0⟩

/-- Transaction semantics: a reverting call leaves the state unchanged. -/
def regApply (s : RegState) (op : RegOp) : RegState :=
  match op with
  | .register ph w pin =>
      match registerWallet s ph w pin with
      | .ok s' => s'
      | .error _ => s
  | .update ph w =>
      match updateWallet s ph w with
      | .ok s' => s'
      | .error _ => s
  | .setPin ph pin =>
      match updatePin s ph pin with
      | .ok s' => s'
      | .error _ => s

/-- A call avoids the zero identity id when it never registers
`bytes32(0)` as a phone hash. -/
def RegOp.avoidsZeroId : RegOp → Prop
  | .register ph _ _ => ph ≠ 0
  | .update _ _ => True
  | .setPin _ _ => True

instance : DecidablePred RegOp.avoidsZeroId := fun op =>
  match op with
  | .register ph _ _ => inferInstanceAs (Decidable (ph ≠ 0))
  | .update _ _ => inferInstanceAs (Decidable True)
  | .setPin _ _ => inferInstanceAs (Decidable True)

/-- The registry invariant: the zero id is never registered, every
registered phone has a nonzero wallet whose reverse entry points back at
it, and every nonzero reverse entry belongs to a registered phone whose
forward entry points back at the wallet. -/
def RegInv (s : RegState) : Prop :=
  s.isRegistered 0 = false ∧
  (∀ ph, s.isRegistered ph = true →
    s.phoneToWallet ph ≠ 0 ∧ s.walletToPhone (s.phoneToWallet ph) = ph) ∧
  (∀ w, s.walletToPhone w ≠ 0 →
    s.isRegistered (s.walletToPhone w) = true ∧
    s.phoneToWallet (s.walletToPhone w) = w)

theorem regInv_init : RegInv regInit := by
  refine ⟨rfl, ?_, ?_⟩ <;> intro x hx <;> simp [regInit] at hx

theorem regInv_register (s : RegState) (ph w pin : Nat)
    (hs : RegInv s) (hph : ph ≠ 0) (s' : RegState)
    (hr : registerWallet s ph w pin = .ok s') : RegInv s' := by
  obtain ⟨h0, hA, hB⟩ := hs
  unfold registerWallet at hr
  split_ifs at hr with h1 h2 h3 h4
  injection hr with hr
  subst hr
  simp only [not_not] at h3
  refine ⟨?_, ?_, ?_⟩
  · simp only [fset_apply]
    rw [if_neg (Ne.symm hph)]
    exact h0
  · intro ph' hreg
    simp only [fset_apply] at hreg ⊢
    by_cases hc : ph' = ph
    · subst hc
      rw [if_pos rfl]
      refine ⟨h2, ?_⟩
      rw [if_pos rfl]
    · rw [if_neg hc] at hreg
      obtain ⟨hw', hrev⟩ := hA ph' hreg
      rw [if_neg hc]
      refine ⟨hw', ?_⟩
      have hne : s.phoneToWallet ph' ≠ w := by
        intro he
        rw [he, h3] at hrev
        have : s.isRegistered 0 = true := hrev ▸ hreg
        rw [h0] at this
        exact Bool.false_ne_true this
      rw [if_neg hne]
      exact hrev
  · intro w' hw'
    simp only [fset_apply] at hw' ⊢
    by_cases hc : w' = w
    · subst hc
      rw [if_pos rfl] at hw' ⊢
      rw [if_pos rfl, if_pos rfl]
      exact ⟨rfl, rfl⟩
    · rw [if_neg hc] at hw' ⊢
      obtain ⟨hreg2, hfwd2⟩ := hB w' hw'
      have hne : s.walletToPhone w' ≠ ph := by
        intro he
        rw [he] at hreg2
        exact h1 hreg2
      rw [if_neg hne, if_neg hne]
      exact ⟨hreg2, hfwd2⟩

theorem regInv_updateWallet (s : RegState) (ph w : Nat)
    (hs : RegInv s) (s' : RegState)
    (hr : updateWallet s ph w = .ok s') : RegInv s' := by
  obtain ⟨h0, hA, hB⟩ := hs
  unfold updateWallet at hr
  split_ifs at hr with h1 h2 h3
  injection hr with hr
  subst hr
  simp only [not_not] at h1 h3
  obtain ⟨hwold, hrevold⟩ := hA ph h1
  have hph0 : ph ≠ 0 := by
    intro he
    rw [he] at h1
    rw [h0] at h1
    exact Bool.false_ne_true h1
  have holdw : s.phoneToWallet ph ≠ w := by
    intro he
    rw [he, h3] at hrevold
    exact hph0 hrevold.symm
  refine ⟨h0, ?_, ?_⟩
  · intro ph' hreg
    by_cases hc : ph' = ph
    · subst hc
      simp [fset_apply, h2]
    · obtain ⟨hw', hrev⟩ := hA ph' hreg
      have hne1 : s.phoneToWallet ph' ≠ w := by
        intro he
        rw [he, h3] at hrev
        rw [← hrev] at hreg
        rw [h0] at hreg
        exact Bool.false_ne_true hreg
      have hne2 : s.phoneToWallet ph' ≠ s.phoneToWallet ph := by
        intro he
        rw [he, hrevold] at hrev
        exact hc hrev.symm
      simp only [fset_apply]
      rw [if_neg hc, if_neg hne1, if_neg hne2]
      exact ⟨hw', hrev⟩
  · intro w' hw'
    simp only [fset_apply] at hw' ⊢
    by_cases hc : w' = w
    · subst hc
      rw [if_pos rfl] at hw' ⊢
      exact ⟨h1, if_pos rfl⟩
    · rw [if_neg hc] at hw' ⊢
      by_cases hold : w' = s.phoneToWallet ph
      · rw [if_pos hold] at hw'
        exact absurd rfl hw'
      · rw [if_neg hold] at hw' ⊢
        obtain ⟨hreg2, hfwd2⟩ := hB w' hw'
        have hne : s.walletToPhone w' ≠ ph := by
          intro he
          rw [he] at hfwd2
          exact hold (hfwd2 ▸ rfl)
        rw [if_neg hne]
        exact ⟨hreg2, hfwd2⟩

/-- One authorized registry call preserves the invariant, provided the
zero identity id is never registered. -/
theorem regInv_apply (s : RegState) (op : RegOp)
    (hs : RegInv s) (hop : op.avoidsZeroId) : RegInv (regApply s op) := by
  cases op with
  | register ph w pin =>
      simp only [regApply]
      cases hr : registerWallet s ph w pin with
      | error _ => exact hs
      | ok s' => exact regInv_register s ph w pin hs hop s' hr
  | update ph w =>
      simp only [regApply]
      cases hr : updateWallet s ph w with
      | error _ => exact hs
      | ok s' => exact regInv_updateWallet s ph w hs s' hr
  | setPin ph pin =>
      simp only [regApply]
      cases hr : updatePin s ph pin with
      | error _ => exact hs
      | ok s' =>
          unfold updatePin at hr
          split_ifs at hr with hc1 hc2
          injection hr with hr
          subst hr
          exact hs

/-- The invariant after any sequence of registry calls that avoid the
zero identity id. -/
theorem regInv_foldl (ops : List RegOp)
    (hop : ∀ op ∈ ops, op.avoidsZeroId) :
    RegInv (ops.foldl regApply regInit) := by
  suffices h : ∀ s, RegInv s → RegInv (ops.foldl regApply s) from
    h regInit regInv_init
  induction ops with
  | nil => intro s hs; exact hs
  | cons op rest ih =>
      intro s hs
      simp only [List.foldl_cons]
      exact ih (fun o ho => hop o (List.mem_cons_of_mem _ ho))
        (regApply s op) (regInv_apply s op hs (hop op (List.mem_cons_self op rest)))

end WalletRegistry

/-! ## P2PTransfer (src/unnamed/part_002) -/

namespace P2PTransfer

/-- Errors of P2PTransfer.  `EnforcedPause` is the revert raised by the
OpenZeppelin `whenNotPaused` modifier (the spec calls it
`ServiceSuspended`); `panick` models a Solidity 0.8 checked-arithmetic
revert. -/
inductive TErr where
  | InvalidAmount
  | SelfTransferNotAllowed
  | RecipientNotRegistered
  | DailyLimitExceeded
  | EnforcedPause
  | panick
  deriving DecidableEq, Repr

/-- A `Transaction` record (part_002 lines 38–45).  The `txHash` keccak
digest is not modelled: no claim references it. -/
structure Transaction where
  fromPhoneHash : Nat
  toPhoneHash : Nat
  amount : Nat
  fee : Nat
  timestamp : Nat
  deriving DecidableEq, Repr

/-- State of the P2PTransfer contract.  `registered` is the view of
the WalletRegistry the contract consults via `checkRegistration`. -/
structure TransferState where
  registered : Nat → Bool
  transactionHistory : Nat → List Transaction
  transferFeeBps : Nat
  minTransferAmount : Nat
  maxTransferAmount : Nat
  dailyTransferLimit : Nat
  dailyTransfers : Nat → Nat → Nat
  accumulatedFees : Nat
  totalTransactions : Nat
  totalVolume : Nat
  paused : Bool

/-- Solidity `transfer` (part_002 lines 153–223), for an authorized caller.
`value` is `msg.value`, `now` is `block.timestamp`.  On success it also
returns the amount settled to the recipient wallet.  The
`whenNotPaused` modifier runs before the function body, so the paused
check comes before every body validation. -/
def transfer (s : TransferState) (fromPhoneHash toPhoneHash value now : Nat) :
    Except TErr (TransferState × Nat) :=
  if s.paused then .error .EnforcedPause
  else if value < s.minTransferAmount ∨ value > s.maxTransferAmount then
    .error .InvalidAmount
  else if fromPhoneHash = toPhoneHash then .error .SelfTransferNotAllowed
  else if ¬ s.registered toPhoneHash then .error .RecipientNotRegistered
  else
    let today := now / 86400
    let todayTotal := s.dailyTransfers fromPhoneHash today + value
    if todayTotal > s.dailyTransferLimit then .error .DailyLimitExceeded
    else
      let fee := value * s.transferFeeBps / 10000
      -- `msg.value - fee` is checked arithmetic in Solidity 0.8
      if value < fee then .error .panick
      else
        let transferAmount := value - fee
        let txRecord : Transaction :=
          { fromPhoneHash := fromPhoneHash
            toPhoneHash := toPhoneHash
            amount := transferAmount
            fee := fee
            timestamp := now }
        .ok
          ({ s with
              dailyTransfers :=
                fun ph d =>
                  if ph = fromPhoneHash ∧ d = today then todayTotal
                  else s.dailyTransfers ph d
              transactionHistory :=
                fun ph =>
                  if ph = fromPhoneHash ∨ ph = toPhoneHash then
                    s.transactionHistory ph ++ [txRecord]
                  else s.transactionHistory ph
              accumulatedFees := s.accumulatedFees + fee
              totalTransactions := s.totalTransactions + 1
              totalVolume := s.totalVolume + transferAmount },
            transferAmount)

/-- Solidity `calculateFee` (part_002 lines 297–303).  The `amount - fee`
subtraction cannot underflow for the fee rates the contract can hold;
it is modelled with truncated subtraction like the view it embeds. -/
def calculateFee (s : TransferState) (amount : Nat) : Nat × Nat :=
  let fee := amount * s.transferFeeBps / 10000
  (fee, amount - fee)

/-- The default `Transaction` an out-of-range index would read. -/
def defaultTx : Transaction :=
  { fromPhoneHash := 0, toPhoneHash := 0, amount := 0, fee := 0, timestamp := 0 }

/-- The loop of `getTransactionHistory` (part_002 lines 232–256) on the
stored history list. -/
def historyWindow (history : List Transaction) (offset limit : Nat) :
    List Transaction :=
  let total := history.length
  if total = 0 ∨ offset ≥ total then []
  else
    let available := total - offset
    let count := if available < limit then available else limit
    (List.range count).map fun i => history.getD (total - 1 - offset - i) defaultTx

/-- Solidity `getTransactionHistory` (part_002 lines 232–256). -/
def getTransactionHistory (s : TransferState) (phoneHash offset limit : Nat) :
    List Transaction :=
  historyWindow (s.transactionHistory phoneHash) offset limit

end P2PTransfer

/-! ## MicroLoan (src/contracts/MicroLoan.sol) -/

namespace MicroLoan

/-- Solidity `LoanStatus` (MicroLoan.sol lines 41–47). -/
inductive LoanStatus where
  | None
  | Active
  | Repaid
  | Defaulted
  | Liquidated
  deriving DecidableEq, Repr

/-- Solidity `Loan` (MicroLoan.sol lines 50–60). -/
structure Loan where
  loanId : Nat
  principal : Nat
  collateral : Nat
  interestRate : Nat
  startTime : Nat
  duration : Nat
  totalDue : Nat
  repaidAmount : Nat
  status : LoanStatus
  deriving DecidableEq, Repr

/-- Solidity `LoanTier` (MicroLoan.sol lines 63–70). -/
structure LoanTier where
  minAmount : Nat
  maxAmount : Nat
  interestRateBps : Nat
  minDuration : Nat
  maxDuration : Nat
  active : Bool
  deriving DecidableEq, Repr

/-- Errors of MicroLoan.  `EnforcedPause` is the `whenNotPaused`
modifier's revert, `RequireFailed` a failed `require` string revert and
`panick` a Solidity 0.8 checked-arithmetic revert. -/
inductive LoanErr where
  | NotRegistered
  | ActiveLoanExists
  | NoActiveLoan
  | InvalidAmount
  | InvalidDuration
  | InsufficientCollateral
  | InsufficientLiquidity
  | LoanNotDue
  | InvalidTier
  | EnforcedPause
  | RequireFailed
  | panick
  deriving DecidableEq, Repr

/-- State of the MicroLoan contract.  `registered` is the view of the
WalletRegistry it consults via `checkRegistration`. -/
structure MLState where
  registered : Nat → Bool
  loans : Nat → Loan
  loanTiers : Nat → LoanTier
  tierCount : Nat
  minCollateralRatio : Nat
  liquidationThreshold : Nat
  totalLoansIssued : Nat
  totalActiveLoanValue : Nat
  availableLiquidity : Nat
  totalInterestEarned : Nat
  paused : Bool

/-- The all-zero `Loan` an untouched mapping slot holds. -/
def emptyLoan : Loan :=
  { loanId := 0, principal := 0, collateral := 0, interestRate := 0
    startTime := 0, duration := 0, totalDue := 0, repaidAmount := 0
    status := .None }

/-- The inactive all-zero `LoanTier` an untouched mapping slot holds. -/
def emptyTier : LoanTier :=
  { minAmount := 0, maxAmount := 0, interestRateBps := 0
    minDuration := 0, maxDuration := 0, active := false }

/-- The three default tiers set by the constructor
(`_initializeDefaultTiers`, MicroLoan.sol lines 194–226); amounts in
wei (1 ether = 10^18), durations in seconds (1 day = 86400). -/
def defaultTiers : Nat → LoanTier :=
  fun i =>
    if i = 0 then
      { minAmount := 1000000000000000, maxAmount := 100000000000000000
        interestRateBps := 1500, minDuration := 604800
        maxDuration := 2592000, active := true }
    else if i = 1 then
      { minAmount := 100000000000000000, maxAmount := 500000000000000000
        interestRateBps := 1200, minDuration := 1209600
        maxDuration := 5184000, active := true }
    else if i = 2 then
      { minAmount := 500000000000000000, maxAmount := 2000000000000000000
        interestRateBps := 1000, minDuration := 2592000
        maxDuration := 7776000, active := true }
    else emptyTier

/-- The state right after the constructor ran. -/
def mlInit : MLState where
  registered := fun _ => false
  loans := fun _ => emptyLoan
  loanTiers := defaultTiers
  tierCount := 3
  minCollateralRatio := 15000
  liquidationThreshold := 12000
  totalLoansIssued := 0
  totalActiveLoanValue := 0
  availableLiquidity := 0
  totalInterestEarned := 0
  paused := false

/-- Seconds in `365 days`, the interest-formula denominator factor. -/
def secondsPerYear : Nat := 31536000

/-- Solidity `requestLoan` (MicroLoan.sol lines 238–319), for an authorized
caller.  `collateral` is `msg.value`, `now` is `block.timestamp`.  The
principal disbursement to the borrower wallet is assumed to succeed
(on failure the whole call reverts). -/
def requestLoan (s : MLState) (phoneHash principal duration tierId collateral now : Nat) :
    Except LoanErr MLState :=
  if s.paused then .error .EnforcedPause
  else if ¬ s.registered phoneHash then .error .NotRegistered
  else if (s.loans phoneHash).status = .Active then .error .ActiveLoanExists
  else
    let tier := s.loanTiers tierId
    if ¬ tier.active then .error .InvalidTier
    else if principal < tier.minAmount ∨ principal > tier.maxAmount then
      .error .InvalidAmount
    else if duration < tier.minDuration ∨ duration > tier.maxDuration then
      .error .InvalidDuration
    else if s.availableLiquidity < principal then .error .InsufficientLiquidity
    else
      let requiredCollateral := principal * s.minCollateralRatio / 10000
      if collateral < requiredCollateral then .error .InsufficientCollateral
      else
        let interest := principal * tier.interestRateBps * duration / (secondsPerYear * 10000)
        let totalDue := principal + interest
        let loanId := s.totalLoansIssued
        let newLoan : Loan :=
          { loanId := loanId, principal := principal, collateral := collateral
            interestRate := tier.interestRateBps, startTime := now
            duration := duration, totalDue := totalDue, repaidAmount := 0
            status := .Active }
        .ok { s with
          loans := fun ph => if ph = phoneHash then newLoan else s.loans ph
          totalLoansIssued := loanId + 1
          availableLiquidity := s.availableLiquidity - principal
          totalActiveLoanValue := s.totalActiveLoanValue + principal }

/-- Solidity `repayLoan` (MicroLoan.sol lines 326–379), for an authorized
caller.  `payment` is `msg.value`.  On success it also returns the
amount sent back to the borrower wallet (collateral plus excess on full
settlement, nothing on a partial repayment). -/
def repayLoan (s : MLState) (phoneHash payment : Nat) :
    Except LoanErr (MLState × Nat) :=
  let loan := s.loans phoneHash
  if loan.status ≠ .Active then .error .NoActiveLoan
  -- `loan.totalDue - loan.repaidAmount` (line 333) is checked arithmetic
  else if loan.totalDue < loan.repaidAmount then .error .panick
  else
    let remainingDue := loan.totalDue - loan.repaidAmount
    if payment ≥ remainingDue then
      -- `loan.totalDue - loan.principal` (line 341) is checked arithmetic
      if loan.totalDue < loan.principal then .error .panick
      -- `totalActiveLoanValue -= loan.principal` (line 346) is checked
      else if s.totalActiveLoanValue < loan.principal then .error .panick
      else
        let returnAmount := loan.collateral + (payment - remainingDue)
        .ok
          ({ s with
              loans := fun ph =>
                if ph = phoneHash then
                  { loan with repaidAmount := loan.totalDue, status := .Repaid }
                else s.loans ph
              totalInterestEarned :=
                s.totalInterestEarned + (loan.totalDue - loan.principal)
              availableLiquidity := s.availableLiquidity + loan.totalDue
              totalActiveLoanValue := s.totalActiveLoanValue - loan.principal },
            returnAmount)
    else
      .ok
        ({ s with
            loans := fun ph =>
              if ph = phoneHash then
                { loan with repaidAmount := loan.repaidAmount + payment }
              else s.loans ph
            availableLiquidity := s.availableLiquidity + payment },
          0)

/-- Solidity `processDefault` (MicroLoan.sol lines 385–414), for an authorized
caller.  `now` is `block.timestamp`. -/
def processDefault (s : MLState) (phoneHash now : Nat) :
    Except LoanErr MLState :=
  let loan := s.loans phoneHash
  if loan.status ≠ .Active then .error .NoActiveLoan
  else if now ≤ loan.startTime + loan.duration then .error .LoanNotDue
  -- `loan.totalDue - loan.repaidAmount` (line 403) is checked arithmetic
  else if loan.totalDue < loan.repaidAmount then .error .panick
  -- `totalActiveLoanValue -= (loan.principal - loan.repaidAmount)`
  -- (line 408): both subtractions are checked arithmetic
  else if loan.principal < loan.repaidAmount then .error .panick
  else if s.totalActiveLoanValue < loan.principal - loan.repaidAmount then
    .error .panick
  else
    .ok { s with
      loans := fun ph =>
        if ph = phoneHash then { loan with status := .Defaulted } else s.loans ph
      availableLiquidity := s.availableLiquidity + loan.collateral
      totalActiveLoanValue :=
        s.totalActiveLoanValue - (loan.principal - loan.repaidAmount) }

/-- Result of `calculateLoanQuote`. -/
structure Quote where
  requiredCollateral : Nat
  interest : Nat
  totalDue : Nat
  monthlyEquivalentRate : Nat
  valid : Bool
  deriving DecidableEq, Repr

/-- Solidity `calculateLoanQuote` (MicroLoan.sol lines 474–500): pure, returns
`valid = false` (not an error) for out-of-range inputs. -/
def calculateLoanQuote (s : MLState) (principal duration tierId : Nat) : Quote :=
  let tier := s.loanTiers tierId
  if ¬ tier.active ∨ principal < tier.minAmount ∨ principal > tier.maxAmount ∨
      duration < tier.minDuration ∨ duration > tier.maxDuration then
    { requiredCollateral := 0, interest := 0, totalDue := 0
      monthlyEquivalentRate := 0, valid := false }
  else
    { requiredCollateral := principal * s.minCollateralRatio / 10000
      interest := principal * tier.interestRateBps * duration / (secondsPerYear * 10000)
      totalDue := principal + principal * tier.interestRateBps * duration / (secondsPerYear * 10000)
      monthlyEquivalentRate := tier.interestRateBps * 2592000 / secondsPerYear
      valid := true }

/-- Result of `getLoanDetails`. -/
structure LoanDetails where
  loanId : Nat
  principal : Nat
  collateral : Nat
  totalDue : Nat
  repaidAmount : Nat
  remainingDue : Nat
  dueDate : Nat
  status : LoanStatus
  deriving DecidableEq, Repr

/-- Solidity `getLoanDetails` (MicroLoan.sol lines 422–443).  The
`loan.totalDue - loan.repaidAmount` it reports is checked arithmetic,
so the view reverts if it would underflow. -/
def getLoanDetails (s : MLState) (phoneHash : Nat) :
    Except LoanErr LoanDetails :=
  let loan := s.loans phoneHash
  if loan.totalDue < loan.repaidAmount then .error .panick
  else
    .ok
      { loanId := loan.loanId, principal := loan.principal
        collateral := loan.collateral, totalDue := loan.totalDue
        repaidAmount := loan.repaidAmount
        remainingDue := loan.totalDue - loan.repaidAmount
        dueDate := loan.startTime + loan.duration, status := loan.status }

/-- Solidity `updateTier` (MicroLoan.sol lines 564–587): owner-only, appends a
new tier or overwrites an existing id. -/
def updateTier (s : MLState) (tierId : Nat) (tier : LoanTier) :
    Except LoanErr MLState :=
  if ¬ (tierId < s.tierCount ∨ tierId = s.tierCount) then .error .RequireFailed
  else
    .ok { s with
      tierCount := if tierId = s.tierCount then s.tierCount + 1 else s.tierCount
      loanTiers := fun i => if i = tierId then tier else s.loanTiers i }

/-- Solidity `addLiquidity` (MicroLoan.sol lines 541–544): owner-only. -/
def addLiquidity (s : MLState) (amount : Nat) : MLState :=
  { s with availableLiquidity := s.availableLiquidity + amount }

/-- Solidity `removeLiquidity` (MicroLoan.sol lines 550–559): owner-only. -/
def removeLiquidity (s : MLState) (amount : Nat) : Except LoanErr MLState :=
  if s.availableLiquidity < amount then .error .RequireFailed
  else .ok { s with availableLiquidity := s.availableLiquidity - amount }

/-- Solidity `updateCollateralRatio` (MicroLoan.sol lines 593–601): owner-only,
bounded to [100%, 300%]. -/
def updateCollateralRatio (s : MLState) (newRatio : Nat) :
    Except LoanErr MLState :=
  if newRatio < 10000 ∨ newRatio > 30000 then .error .RequireFailed
  else .ok { s with minCollateralRatio := newRatio }

/-- The MicroLoan calls a reachability claim can make.  `registerUser`
models a `WalletRegistry.registerWallet` call becoming visible through
`checkRegistration`. -/
inductive MLOp where
  | registerUser (phoneHash : Nat)
  | request (phoneHash principal duration tierId collateral now : Nat)
  | repay (phoneHash payment : Nat)
  | default (phoneHash now : Nat)
  | setTier (tierId : Nat) (tier : LoanTier)
  | addLiq (amount : Nat)
  | removeLiq (amount : Nat)
  | setRatio (newRatio : Nat)
  | setPaused (b : Bool)

/-- Transaction semantics: a reverting call leaves the state unchanged. -/
def mlApply (s : MLState) (op : MLOp) : MLState :=
  match op with
  | .registerUser ph => { s with registered := fun x => if x = ph then true else s.registered x }
  | .request ph p d t c now =>
      match requestLoan s ph p d t c now with
      | .ok s' => s'
      | .error _ => s
  | .repay ph payment =>
      match repayLoan s ph payment with
      | .ok pr => pr.1
      | .error _ => s
  | .default ph now =>
      match processDefault s ph now with
      | .ok s' => s'
      | .error _ => s
  | .setTier tierId tier =>
      match updateTier s tierId tier with
      | .ok s' => s'
      | .error _ => s
  | .addLiq amount => addLiquidity s amount
  | .removeLiq amount =>
      match removeLiquidity s amount with
      | .ok s' => s'
      | .error _ => s
  | .setRatio r =>
      match updateCollateralRatio s r with
      | .ok s' => s'
      | .error _ => s
  | .setPaused b => { s with paused := b }

/-- A MicroLoan state reachable by a call trace from the constructor
state. -/
def mlReach (ops : List MLOp) : MLState :=
  ops.foldl mlApply mlInit

end MicroLoan

/-! ## Claims -/

open WalletRegistry P2PTransfer MicroLoan

theorem historyWindow_eq (history : List Transaction) (offset limit : Nat) :
    historyWindow history offset limit =
      (history.reverse.drop offset).take limit := by
  unfold historyWindow
  by_cases h0 : history.length = 0 ∨ offset ≥ history.length
  · rw [if_pos h0]
    have hnil : history.reverse.drop offset = [] := by
      rcases h0 with h0 | h0
      · rw [List.length_eq_zero] at h0
        subst h0
        simp
      · exact List.drop_eq_nil_of_le (by simpa using h0)
    rw [hnil, List.take_nil]
  · rw [if_neg h0]
    push_neg at h0
    obtain ⟨hne, hlt⟩ := h0
    apply List.ext_getElem
    · simp only [List.length_map, List.length_range, List.length_take,
        List.length_drop, List.length_reverse]
      split <;> omega
    · intro i h1 h2
      simp only [List.length_map, List.length_range] at h1
      rw [List.getElem_map, List.getElem_range, List.getElem_take,
        List.getElem_drop, List.getElem_reverse]
      have hidx : history.length - 1 - offset - i < history.length := by
        split at h1 <;> omega
      rw [List.getD_eq_getElem history defaultTx hidx]
      have hij : history.length - 1 - offset - i =
          history.length - 1 - (offset + i) := by omega
      congr 1

/-- C9: `getHistory(id, offset, limit)` returns records strictly
newest-first; it returns an empty result (not an error) for every
unknown id (empty stored history) and for every `offset ≥` the number
of records; and when `limit` exceeds the remaining records past
`offset`, it returns exactly the remaining records.  All of this is the
single equation: the result is the window of width `limit` starting at
`offset` into the reversed (newest-first) history. -/
theorem getTransactionHistory_newest_first (s : TransferState)
    (phoneHash offset limit : Nat) :
    getTransactionHistory s phoneHash offset limit =
      ((s.transactionHistory phoneHash).reverse.drop offset).take limit :=
  historyWindow_eq (s.transactionHistory phoneHash) offset limit

/-- A P2PTransfer state with the constructor's default parameters, every
phone hash registered and no prior activity. -/
def freshTransferState : TransferState where
  registered := fun _ => true
  transactionHistory := fun _ => []
  transferFeeBps := 50
  minTransferAmount := 100000000000000
  maxTransferAmount := 10000000000000000000
  dailyTransferLimit := 50000000000000000000
  dailyTransfers := fun _ _ => 0
  accumulatedFees := 0
  totalTransactions := 0
  totalVolume := 0
  paused := false

/-- The same state as `freshTransferState` but with the contract
paused. -/
def pausedTransferState : TransferState :=
  { freshTransferState with paused := true }

/-- C3 (amended): the validation order of `transfer`, first failing
check winning, is: paused (the `whenNotPaused` modifier, reverting
`EnforcedPause`, runs before the body) → `InvalidAmount` →
`SelfTransferNotAllowed` → `RecipientNotRegistered` →
`DailyLimitExceeded`. -/
theorem transfer_validation_order (s : TransferState)
    (fromPh toPh value now : Nat) :
    (s.paused = true →
      transfer s fromPh toPh value now = .error .EnforcedPause) ∧
    (s.paused = false →
      (value < s.minTransferAmount ∨ value > s.maxTransferAmount) →
      transfer s fromPh toPh value now = .error .InvalidAmount) ∧
    (s.paused = false →
      ¬ (value < s.minTransferAmount ∨ value > s.maxTransferAmount) →
      fromPh = toPh →
      transfer s fromPh toPh value now = .error .SelfTransferNotAllowed) ∧
    (s.paused = false →
      ¬ (value < s.minTransferAmount ∨ value > s.maxTransferAmount) →
      fromPh ≠ toPh → s.registered toPh = false →
      transfer s fromPh toPh value now = .error .RecipientNotRegistered) ∧
    (s.paused = false →
      ¬ (value < s.minTransferAmount ∨ value > s.maxTransferAmount) →
      fromPh ≠ toPh → s.registered toPh = true →
      s.dailyTransfers fromPh (now / 86400) + value > s.dailyTransferLimit →
      transfer s fromPh toPh value now = .error .DailyLimitExceeded) := by
  refine ⟨?_, ?_, ?_, ?_, ?_⟩
  · intro h1
    simp [transfer, h1]
  · intro h1 h2
    simp [transfer, h1, h2]
  · intro h1 h2 h3
    simp [transfer, h1, h2, h3]
  · intro h1 h2 h3 h4
    simp [transfer, h1, h2, h3, h4]
  · intro h1 h2 h3 h4 h5
    simp [transfer, h1, h2, h3, h4, h5]

/-- Witness for C3's theorem: on a paused contract the transfer reverts
with the pause signal. -/
theorem transfer_validation_order_witness :
    transfer pausedTransferState 1 2 5 0 = .error .EnforcedPause :=
  (transfer_validation_order pausedTransferState 1 2 5 0).1 rfl

/-- Counterexample to C3 as stated: with the contract paused and
`value` below the minimum, the claim's order (paused checked last)
predicts `InvalidAmount`, but the code reverts with the pause signal,
because `whenNotPaused` runs before every body validation. -/
theorem transfer_paused_not_last_counterexample :
    pausedTransferState.paused = true ∧
    5 < pausedTransferState.minTransferAmount ∧
    transfer pausedTransferState 1 2 5 0 = .error .EnforcedPause ∧
    TErr.EnforcedPause ≠ TErr.InvalidAmount :=
  ⟨rfl, by decide, rfl, by decide⟩

/-- C7: when `transfer` succeeds, the fee is exactly
`floor(value*feeBps/10000)`, the recipient is settled exactly
`value - fee`, so `fee + net = value`; the accumulated fees grow by the
fee, the fee parameter is untouched (so a repeated identical call
charges the identical fee), and `calculateFee` reports the same pair. -/
theorem transfer_fee_exact (s : TransferState) (fromPh toPh value now : Nat)
    (h1 : s.paused = false)
    (h2 : ¬ (value < s.minTransferAmount ∨ value > s.maxTransferAmount))
    (h3 : fromPh ≠ toPh)
    (h4 : s.registered toPh = true)
    (h5 : s.dailyTransfers fromPh (now / 86400) + value ≤ s.dailyTransferLimit)
    (h6 : s.transferFeeBps ≤ 10000) :
    transfer s fromPh toPh value now = Except.ok
      ({ s with
          dailyTransfers := fun ph d =>
            if ph = fromPh ∧ d = now / 86400 then
              s.dailyTransfers fromPh (now / 86400) + value
            else s.dailyTransfers ph d
          transactionHistory := fun ph =>
            if ph = fromPh ∨ ph = toPh then
              s.transactionHistory ph ++
                [{ fromPhoneHash := fromPh, toPhoneHash := toPh
                   amount := value - value * s.transferFeeBps / 10000
                   fee := value * s.transferFeeBps / 10000, timestamp := now }]
            else s.transactionHistory ph
          accumulatedFees := s.accumulatedFees + value * s.transferFeeBps / 10000
          totalTransactions := s.totalTransactions + 1
          totalVolume :=
            s.totalVolume + (value - value * s.transferFeeBps / 10000) },
        value - value * s.transferFeeBps / 10000) ∧
    value * s.transferFeeBps / 10000 +
      (value - value * s.transferFeeBps / 10000) = value ∧
    calculateFee s value =
      (value * s.transferFeeBps / 10000,
        value - value * s.transferFeeBps / 10000) := by
  have hfee : value * s.transferFeeBps / 10000 ≤ value := by
    calc value * s.transferFeeBps / 10000
        ≤ value * 10000 / 10000 :=
          Nat.div_le_div_right (Nat.mul_le_mul_left value h6)
      _ = value := Nat.mul_div_cancel value (by norm_num)
  refine ⟨?_, by omega, rfl⟩
  simp only [transfer, h1]
  rw [if_neg (by simp), if_neg h2, if_neg h3, if_neg (by simp [h4]),
    if_neg (by omega), if_neg (Nat.not_lt.mpr hfee)]

/-- A MicroLoan state reached from the constructor by registering phone
hash 1 and adding 0.1 ether of liquidity. -/
def loanQuoteState : MLState :=
  mlReach [.registerUser 1, .addLiq 100000000000000000]

/-- C6: a successful `requestLoan` books
`interest = floor(principal*rateBps*duration/(365days*10000))` and
`totalDue = principal + interest`, and `calculateLoanQuote` reports the
same interest and totalDue (with `valid = true`) for the same in-range
inputs. -/
theorem requestLoan_interest_formula (s : MLState)
    (ph principal duration tierId collateral now : Nat)
    (h0 : s.paused = false)
    (h1 : s.registered ph = true)
    (h2 : (s.loans ph).status ≠ .Active)
    (h3 : (s.loanTiers tierId).active = true)
    (h4 : ¬ (principal < (s.loanTiers tierId).minAmount ∨
      principal > (s.loanTiers tierId).maxAmount))
    (h5 : ¬ (duration < (s.loanTiers tierId).minDuration ∨
      duration > (s.loanTiers tierId).maxDuration))
    (h6 : principal ≤ s.availableLiquidity)
    (h7 : principal * s.minCollateralRatio / 10000 ≤ collateral) :
    requestLoan s ph principal duration tierId collateral now = Except.ok
      { s with
        loans := fun x =>
          if x = ph then
            { loanId := s.totalLoansIssued, principal := principal
              collateral := collateral
              interestRate := (s.loanTiers tierId).interestRateBps
              startTime := now, duration := duration
              totalDue := principal +
                principal * (s.loanTiers tierId).interestRateBps * duration /
                  (secondsPerYear * 10000)
              repaidAmount := 0, status := .Active }
          else s.loans x
        totalLoansIssued := s.totalLoansIssued + 1
        availableLiquidity := s.availableLiquidity - principal
        totalActiveLoanValue := s.totalActiveLoanValue + principal } ∧
    (calculateLoanQuote s principal duration tierId).interest =
      principal * (s.loanTiers tierId).interestRateBps * duration /
        (secondsPerYear * 10000) ∧
    (calculateLoanQuote s principal duration tierId).totalDue =
      principal +
        principal * (s.loanTiers tierId).interestRateBps * duration /
          (secondsPerYear * 10000) ∧
    (calculateLoanQuote s principal duration tierId).valid = true := by
  have hq : ¬ (¬ (s.loanTiers tierId).active ∨
      principal < (s.loanTiers tierId).minAmount ∨
      principal > (s.loanTiers tierId).maxAmount ∨
      duration < (s.loanTiers tierId).minDuration ∨
      duration > (s.loanTiers tierId).maxDuration) := by
    push_neg at h4 h5 ⊢
    exact ⟨by simp [h3], h4.1, h4.2, h5.1, h5.2⟩
  refine ⟨?_, ?_, ?_, ?_⟩
  · simp only [requestLoan]
    rw [if_neg (by simp [h0]), if_neg (by simp [h1]), if_neg h2,
      if_neg (by simp [h3]), if_neg h4, if_neg h5,
      if_neg (Nat.not_lt.mpr h6), if_neg (Nat.not_lt.mpr h7)]
  · simp only [calculateLoanQuote]
    rw [if_neg hq]
  · simp only [calculateLoanQuote]
    rw [if_neg hq]
  · simp only [calculateLoanQuote]
    rw [if_neg hq]

/-- Witness for C6's theorem: tier 0 (rate 1500 bps), principal
0.05 ether, duration 7 days: the quote reports
interest = floor(5e16*1500*604800/(31536000*10000)) = 143835616438356
and totalDue = principal + interest. -/
theorem requestLoan_interest_formula_witness :
    (calculateLoanQuote loanQuoteState 50000000000000000 604800 0).interest =
      143835616438356 ∧
    (calculateLoanQuote loanQuoteState 50000000000000000 604800 0).totalDue =
      50143835616438356 ∧
    (calculateLoanQuote loanQuoteState 50000000000000000 604800 0).valid = true :=
  (requestLoan_interest_formula loanQuoteState 1 50000000000000000 604800 0
    75000000000000000 0 rfl (by decide) (by decide) (by decide) (by decide)
    (by decide) (by decide) (by decide)).2

/-- C1 (amended): with every earlier `requestLoan` check passing, the
call fails `InsufficientCollateral` exactly when the supplied
collateral is strictly below `floor(principal*ratioBps/10000)` — the
integer division of the source rounds down, not up — and
`calculateLoanQuote` reports that floor value as `requiredCollateral`. -/
theorem requestLoan_collateral_floor (s : MLState)
    (ph principal duration tierId collateral now : Nat)
    (h0 : s.paused = false)
    (h1 : s.registered ph = true)
    (h2 : (s.loans ph).status ≠ .Active)
    (h3 : (s.loanTiers tierId).active = true)
    (h4 : ¬ (principal < (s.loanTiers tierId).minAmount ∨
      principal > (s.loanTiers tierId).maxAmount))
    (h5 : ¬ (duration < (s.loanTiers tierId).minDuration ∨
      duration > (s.loanTiers tierId).maxDuration))
    (h6 : principal ≤ s.availableLiquidity) :
    (requestLoan s ph principal duration tierId collateral now =
        Except.error .InsufficientCollateral ↔
      collateral < principal * s.minCollateralRatio / 10000) ∧
    (calculateLoanQuote s principal duration tierId).requiredCollateral =
      principal * s.minCollateralRatio / 10000 := by
  have hq : ¬ (¬ (s.loanTiers tierId).active ∨
      principal < (s.loanTiers tierId).minAmount ∨
      principal > (s.loanTiers tierId).maxAmount ∨
      duration < (s.loanTiers tierId).minDuration ∨
      duration > (s.loanTiers tierId).maxDuration) := by
    push_neg at h4 h5 ⊢
    exact ⟨by simp [h3], h4.1, h4.2, h5.1, h5.2⟩
  constructor
  · simp only [requestLoan]
    rw [if_neg (by simp [h0]), if_neg (by simp [h1]), if_neg h2,
      if_neg (by simp [h3]), if_neg h4, if_neg h5,
      if_neg (Nat.not_lt.mpr h6)]
    by_cases hc : collateral < principal * s.minCollateralRatio / 10000
    · rw [if_pos hc]
      simp [hc]
    · rw [if_neg hc]
      simp [hc]
  · simp only [calculateLoanQuote]
    rw [if_neg hq]

/-- Witness for C1's theorem: Scenario B — ratio 15000 bps, principal
0.05 ether: supplying 0.074 ether fails `InsufficientCollateral` and
supplying 0.075 ether does not. -/
theorem requestLoan_collateral_floor_witness :
    requestLoan loanQuoteState 1 50000000000000000 604800 0
        74000000000000000 0 = Except.error .InsufficientCollateral ∧
    requestLoan loanQuoteState 1 50000000000000000 604800 0
        75000000000000000 0 ≠ Except.error .InsufficientCollateral := by
  constructor
  · exact (requestLoan_collateral_floor loanQuoteState 1 50000000000000000
      604800 0 74000000000000000 0 rfl (by decide) (by decide) (by decide)
      (by decide) (by decide) (by decide)).1.mpr (by decide)
  · intro h
    exact absurd ((requestLoan_collateral_floor loanQuoteState 1
      50000000000000000 604800 0 75000000000000000 0 rfl (by decide)
      (by decide) (by decide) (by decide) (by decide) (by decide)).1.mp h)
      (by decide)

/-- A MicroLoan state reached from the constructor by registering phone
hash 1 and adding 0.002 ether of liquidity. -/
def oddPrincipalState : MLState :=
  mlReach [.registerUser 1, .addLiq 2000000000000000]

/-- Counterexample to C1 as stated: with ratio 15000 bps and the odd
principal 1000000000000001 wei, `ceil(principal*15000/10000)` is
1500000000000002, yet supplying 1500000000000001 wei — strictly below
that ceiling, witnessed by `collateral*10000 < principal*ratio` —
succeeds instead of failing `InsufficientCollateral`, and the quote
reports the floor 1500000000000001 as `requiredCollateral`. -/
theorem requestLoan_ceil_counterexample :
    (requestLoan oddPrincipalState 1 1000000000000001 604800 0
        1500000000000001 0).isOk = true ∧
    1500000000000001 * 10000 <
      1000000000000001 * oddPrincipalState.minCollateralRatio ∧
    (calculateLoanQuote oddPrincipalState 1000000000000001 604800
        0).requiredCollateral = 1500000000000001 :=
  ⟨by decide, by decide, by decide⟩

/-- Witness for C7's theorem: Scenario A — `feeBps = 50`,
`value = 1 ether`: the fee is 0.005 ether, the recipient receives
0.995 ether, and the two sum back to the transferred value. -/
theorem transfer_fee_exact_witness :
    1000000000000000000 * freshTransferState.transferFeeBps / 10000 +
      (1000000000000000000 -
        1000000000000000000 * freshTransferState.transferFeeBps / 10000) =
      1000000000000000000 ∧
    calculateFee freshTransferState 1000000000000000000 =
      (5000000000000000, 995000000000000000) :=
  (transfer_fee_exact freshTransferState 1 2 1000000000000000000 0 rfl
    (by decide) (by decide) rfl (by decide) (by decide)).2

/-- C4: full settlement.  On an Active loan with
`remaining = totalDue - repaidAmount` and `payment ≥ remaining`, the
loan becomes Repaid with `repaidAmount = totalDue`, the pool grows by
`totalDue`, exactly `collateral + (payment - remaining)` is returned to
the borrower, and `totalDue - principal` is accrued as interest earned.
The three well-formedness hypotheses (`repaidAmount ≤ totalDue`,
`principal ≤ totalDue`, `principal ≤ totalActiveLoanValue`) hold in
every reachable state: the first is the reachable-state invariant
settled with C10, the others are the analogous bookkeeping facts. -/
theorem repayLoan_full_settlement (s : MLState) (ph payment : Nat)
    (h1 : (s.loans ph).status = .Active)
    (h2 : (s.loans ph).repaidAmount ≤ (s.loans ph).totalDue)
    (h3 : (s.loans ph).principal ≤ (s.loans ph).totalDue)
    (h4 : (s.loans ph).principal ≤ s.totalActiveLoanValue)
    (h5 : (s.loans ph).totalDue - (s.loans ph).repaidAmount ≤ payment) :
    repayLoan s ph payment = Except.ok
      ({ s with
          loans := fun x =>
            if x = ph then
              { s.loans ph with
                  repaidAmount := (s.loans ph).totalDue, status := .Repaid }
            else s.loans x
          totalInterestEarned :=
            s.totalInterestEarned +
              ((s.loans ph).totalDue - (s.loans ph).principal)
          availableLiquidity := s.availableLiquidity + (s.loans ph).totalDue
          totalActiveLoanValue :=
            s.totalActiveLoanValue - (s.loans ph).principal },
        (s.loans ph).collateral +
          (payment - ((s.loans ph).totalDue - (s.loans ph).repaidAmount))) := by
  simp only [repayLoan]
  rw [if_neg (by simp [h1]), if_neg (Nat.not_lt.mpr h2), if_pos h5.ge,
    if_neg (Nat.not_lt.mpr h3), if_neg (Nat.not_lt.mpr h4)]

/-- A MicroLoan state holding one Active tier-0 loan of principal
0.001 ether over 7 days (totalDue = 1002876712328767 wei, nothing
repaid yet). -/
def activeLoanState : MLState :=
  mlReach [.registerUser 1, .addLiq 1000000000000000,
    .request 1 1000000000000000 604800 0 1500000000000000 0]

/-- Witness for C4's theorem: Scenario D — paying exactly the remaining
due settles the loan and returns exactly the collateral (excess 0). -/
theorem repayLoan_full_settlement_witness :
    repayLoan activeLoanState 1 1002876712328767 = Except.ok
      ({ activeLoanState with
          loans := fun x =>
            if x = 1 then
              { activeLoanState.loans 1 with
                  repaidAmount := (activeLoanState.loans 1).totalDue
                  status := .Repaid }
            else activeLoanState.loans x
          totalInterestEarned :=
            activeLoanState.totalInterestEarned +
              ((activeLoanState.loans 1).totalDue -
                (activeLoanState.loans 1).principal)
          availableLiquidity :=
            activeLoanState.availableLiquidity +
              (activeLoanState.loans 1).totalDue
          totalActiveLoanValue :=
            activeLoanState.totalActiveLoanValue -
              (activeLoanState.loans 1).principal },
        1500000000000000) :=
  repayLoan_full_settlement activeLoanState 1 1002876712328767 (by decide)
    (by decide) (by decide) (by decide) (by decide)

/-- C5: partial repayment.  On an Active loan with the payment strictly
below the remaining due, `repaidAmount` grows by exactly the payment,
the pool grows by exactly the payment, the status stays Active (the
updated loan record keeps `(s.loans ph).status`, which is Active by
hypothesis), the collateral field is untouched and nothing is sent back
to the borrower. -/
theorem repayLoan_partial_keeps_collateral (s : MLState) (ph payment : Nat)
    (h1 : (s.loans ph).status = .Active)
    (h2 : (s.loans ph).repaidAmount ≤ (s.loans ph).totalDue)
    (h3 : payment < (s.loans ph).totalDue - (s.loans ph).repaidAmount) :
    repayLoan s ph payment = Except.ok
      ({ s with
          loans := fun x =>
            if x = ph then
              { s.loans ph with
                  repaidAmount := (s.loans ph).repaidAmount + payment }
            else s.loans x
          availableLiquidity := s.availableLiquidity + payment },
        0) := by
  simp only [repayLoan]
  rw [if_neg (by simp [h1]), if_neg (Nat.not_lt.mpr h2), if_neg (by omega)]

/-- Witness for C5's theorem: a 0.0005 ether payment on the active
0.001 ether loan stays a partial repayment. -/
theorem repayLoan_partial_keeps_collateral_witness :
    repayLoan activeLoanState 1 500000000000000 = Except.ok
      ({ activeLoanState with
          loans := fun x =>
            if x = 1 then
              { activeLoanState.loans 1 with
                  repaidAmount :=
                    (activeLoanState.loans 1).repaidAmount + 500000000000000 }
            else activeLoanState.loans x
          availableLiquidity :=
            activeLoanState.availableLiquidity + 500000000000000 },
        0) :=
  repayLoan_partial_keeps_collateral activeLoanState 1 500000000000000
    (by decide) (by decide) (by decide)

/-- A reachable MicroLoan state whose Active tier-0 loan has been
partially repaid beyond its principal: principal 0.001 ether over
30 days gives totalDue = 1012328767123287 wei, and a single partial
repayment of 1000000000000001 wei (below the remaining due) leaves
`repaidAmount = principal + 1`. -/
def overRepaidState : MLState :=
  mlReach [.registerUser 1, .addLiq 1000000000000000,
    .request 1 1000000000000000 2592000 0 1500000000000000 0,
    .repay 1 1000000000000001]

/-- C2's failing input: the loan is Active and past due at time
2592001, with `repaidAmount ≤ totalDue`, so the claim says
`processDefault` must succeed (seizing the collateral regardless of
partial repayments) — but because `repaidAmount > principal`, the
statistics update `totalActiveLoanValue -= (loan.principal -
loan.repaidAmount)` (MicroLoan.sol line 408) underflows and the whole
call reverts with a checked-arithmetic panic. -/
theorem processDefault_overpaid_partial_reverts :
    (overRepaidState.loans 1).status = .Active ∧
    (overRepaidState.loans 1).startTime + (overRepaidState.loans 1).duration
      < 2592001 ∧
    (overRepaidState.loans 1).repaidAmount ≤ (overRepaidState.loans 1).totalDue ∧
    (overRepaidState.loans 1).principal < (overRepaidState.loans 1).repaidAmount ∧
    processDefault overRepaidState 1 2592001 = Except.error LoanErr.panick :=
  ⟨by decide, by decide, by decide, by decide, rfl⟩

/-- The per-loan invariant behind C10: the repaid amount never exceeds
the total due, strictly so while the loan is Active with a nonzero
total due. -/
def LoanOk (l : Loan) : Prop :=
  l.repaidAmount ≤ l.totalDue ∧
  (l.status = .Active → l.totalDue ≠ 0 → l.repaidAmount < l.totalDue)

theorem loanOk_empty : LoanOk emptyLoan := by
  refine ⟨Nat.le_refl 0, ?_⟩
  intro h
  exact absurd h (by decide)

theorem loanOk_update (f : Nat → Loan) (k : Nat) (l : Loan)
    (hf : ∀ ph, LoanOk (f ph)) (hl : LoanOk l) :
    ∀ ph, LoanOk (if ph = k then l else f ph) := by
  intro ph
  by_cases hc : ph = k
  · rw [if_pos hc]
    exact hl
  · rw [if_neg hc]
    exact hf ph

theorem loanOk_mlApply (s : MLState) (op : MLOp)
    (hs : ∀ ph, LoanOk (s.loans ph)) :
    ∀ ph, LoanOk ((mlApply s op).loans ph) := by
  cases op with
  | registerUser ph2 => exact hs
  | addLiq a => exact hs
  | setPaused b => exact hs
  | setTier tid tier =>
      simp only [mlApply]
      cases hr : updateTier s tid tier with
      | error _ => exact hs
      | ok s' =>
          simp only [updateTier] at hr
          split_ifs at hr <;> (injection hr with hr; subst hr; exact hs)
  | removeLiq a =>
      simp only [mlApply]
      cases hr : removeLiquidity s a with
      | error _ => exact hs
      | ok s' =>
          simp only [removeLiquidity] at hr
          split_ifs at hr
          injection hr with hr
          subst hr
          exact hs
  | setRatio r =>
      simp only [mlApply]
      cases hr : updateCollateralRatio s r with
      | error _ => exact hs
      | ok s' =>
          simp only [updateCollateralRatio] at hr
          split_ifs at hr
          injection hr with hr
          subst hr
          exact hs
  | request ph2 p d t c now =>
      simp only [mlApply]
      cases hr : requestLoan s ph2 p d t c now with
      | error _ => exact hs
      | ok s' =>
          simp only [requestLoan] at hr
          split_ifs at hr
          injection hr with hr
          subst hr
          exact loanOk_update s.loans ph2 _ hs
            ⟨Nat.zero_le _, fun _ h2 => Nat.pos_of_ne_zero h2⟩
  | repay ph2 payment =>
      simp only [mlApply]
      cases hr : repayLoan s ph2 payment with
      | error _ => exact hs
      | ok pr =>
          simp only [repayLoan] at hr
          split_ifs at hr with hb1 hb2 hb3 hb4 hb5
          · -- full settlement: repaidAmount pinned to totalDue, Repaid
            injection hr with hr
            subst hr
            exact loanOk_update s.loans ph2 _ hs
              ⟨Nat.le_refl _, fun h => by simp at h⟩
          · -- partial repayment: strictly below totalDue
            injection hr with hr
            subst hr
            refine loanOk_update s.loans ph2 _ hs ⟨?_, fun _ _ => ?_⟩
            · show (s.loans ph2).repaidAmount + payment ≤ (s.loans ph2).totalDue
              omega
            · show (s.loans ph2).repaidAmount + payment < (s.loans ph2).totalDue
              omega
  | default ph2 now =>
      simp only [mlApply]
      cases hr : processDefault s ph2 now with
      | error _ => exact hs
      | ok s' =>
          simp only [processDefault] at hr
          split_ifs at hr with hd1 hd2 hd3 hd4 hd5
          injection hr with hr
          subst hr
          refine loanOk_update s.loans ph2 _ hs ⟨?_, fun h => by simp at h⟩
          show (s.loans ph2).repaidAmount ≤ (s.loans ph2).totalDue
          omega

theorem loanOk_mlReach (ops : List MLOp) :
    ∀ ph, LoanOk ((mlReach ops).loans ph) := by
  unfold mlReach
  suffices h : ∀ s, (∀ ph, LoanOk (s.loans ph)) →
      ∀ ph, LoanOk ((ops.foldl mlApply s).loans ph) from
    h mlInit (fun _ => loanOk_empty)
  induction ops with
  | nil => intro s hs; exact hs
  | cons op rest ih =>
      intro s hs
      simp only [List.foldl_cons]
      exact ih (mlApply s op) (loanOk_mlApply s op hs)

/-- C10 (amended): in every reachable MicroLoan state and for every
queried identity (registered or not), `repaidAmount ≤ totalDue`, and
strictly so while the loan is Active with nonzero `totalDue` (a
zero-principal loan through an owner-configured zero-minimum tier is
Active with `repaidAmount = totalDue = 0`); hence the
`remainingDue = totalDue - repaidAmount` reported by `getLoanDetails`
never underflows — the view returns cleanly with that difference. -/
theorem reachable_repaid_le_totalDue (ops : List MLOp) (ph : Nat) :
    ((mlReach ops).loans ph).repaidAmount ≤ ((mlReach ops).loans ph).totalDue ∧
    (((mlReach ops).loans ph).status = .Active →
      ((mlReach ops).loans ph).totalDue ≠ 0 →
      ((mlReach ops).loans ph).repaidAmount <
        ((mlReach ops).loans ph).totalDue) ∧
    getLoanDetails (mlReach ops) ph = Except.ok
      { loanId := ((mlReach ops).loans ph).loanId
        principal := ((mlReach ops).loans ph).principal
        collateral := ((mlReach ops).loans ph).collateral
        totalDue := ((mlReach ops).loans ph).totalDue
        repaidAmount := ((mlReach ops).loans ph).repaidAmount
        remainingDue := ((mlReach ops).loans ph).totalDue -
          ((mlReach ops).loans ph).repaidAmount
        dueDate := ((mlReach ops).loans ph).startTime +
          ((mlReach ops).loans ph).duration
        status := ((mlReach ops).loans ph).status } := by
  obtain ⟨hle, hstrict⟩ := loanOk_mlReach ops ph
  refine ⟨hle, hstrict, ?_⟩
  unfold getLoanDetails
  rw [if_neg (Nat.not_lt.mpr hle)]

/-- The trace backing C10's witness. -/
def invariantWitnessOps : List MLOp :=
  [.registerUser 1, .addLiq 1000000000000000,
    .request 1 1000000000000000 604800 0 1500000000000000 0]

/-- Witness for C10's theorem: on a freshly issued Active loan the
repaid amount (0) is strictly below the total due, and
`getLoanDetails` reports the non-underflowing remaining due. -/
theorem reachable_repaid_le_totalDue_witness :
    ((mlReach invariantWitnessOps).loans 1).repaidAmount <
      ((mlReach invariantWitnessOps).loans 1).totalDue ∧
    getLoanDetails (mlReach invariantWitnessOps) 1 = Except.ok
      { loanId := ((mlReach invariantWitnessOps).loans 1).loanId
        principal := ((mlReach invariantWitnessOps).loans 1).principal
        collateral := ((mlReach invariantWitnessOps).loans 1).collateral
        totalDue := ((mlReach invariantWitnessOps).loans 1).totalDue
        repaidAmount := ((mlReach invariantWitnessOps).loans 1).repaidAmount
        remainingDue := ((mlReach invariantWitnessOps).loans 1).totalDue -
          ((mlReach invariantWitnessOps).loans 1).repaidAmount
        dueDate := ((mlReach invariantWitnessOps).loans 1).startTime +
          ((mlReach invariantWitnessOps).loans 1).duration
        status := ((mlReach invariantWitnessOps).loans 1).status } :=
  ⟨(reachable_repaid_le_totalDue invariantWitnessOps 1).2.1 (by decide)
      (by decide),
    (reachable_repaid_le_totalDue invariantWitnessOps 1).2.2⟩

/-- A reachable state holding an Active loan with
`repaidAmount = totalDue = 0`: the owner overwrites tier 0 with a
zero-minimum tier, and a zero-principal loan is granted against it. -/
def zeroLoanState : MLState :=
  mlReach [.registerUser 1,
    .setTier 0 { minAmount := 0, maxAmount := 0, interestRateBps := 0
                 minDuration := 0, maxDuration := 0, active := true },
    .request 1 0 0 0 0 0]

/-- Counterexample to C10 as stated: this reachable state has an
Active loan whose `repaidAmount` equals its `totalDue` (both 0), so
the inequality is not strict while the loan is Active. -/
theorem active_loan_zero_due_counterexample :
    (zeroLoanState.loans 1).status = .Active ∧
    (zeroLoanState.loans 1).repaidAmount = (zeroLoanState.loans 1).totalDue :=
  ⟨by decide, by decide⟩

/-- C8 (amended): after any sequence of registration and
wallet-reassignment calls in which the zero identity id (`bytes32(0)`)
is never registered, the identity-to-owner mapping is a bijection over
registered identities: every registered phone hash has a nonzero
wallet, `reverseResolve (resolve id) = id`,
`resolve (reverseResolve owner) = owner` for that identity's owner, and
no wallet is the owner of two registered identities. -/
theorem registry_bijection (ops : List RegOp)
    (hops : ∀ op ∈ ops, op.avoidsZeroId) :
    ∀ ph, (ops.foldl regApply regInit).isRegistered ph = true →
      getWallet (ops.foldl regApply regInit) ph ≠ 0 ∧
      getPhoneHash (ops.foldl regApply regInit)
        (getWallet (ops.foldl regApply regInit) ph) = ph ∧
      getWallet (ops.foldl regApply regInit)
        (getPhoneHash (ops.foldl regApply regInit)
          (getWallet (ops.foldl regApply regInit) ph)) =
        getWallet (ops.foldl regApply regInit) ph ∧
      ∀ ph2, (ops.foldl regApply regInit).isRegistered ph2 = true →
        getWallet (ops.foldl regApply regInit) ph2 =
          getWallet (ops.foldl regApply regInit) ph → ph2 = ph := by
  intro ph hreg
  obtain ⟨h0, hA, hB⟩ := regInv_foldl ops hops
  obtain ⟨hw, hrev⟩ := hA ph hreg
  refine ⟨hw, hrev, ?_, ?_⟩
  · unfold getWallet getPhoneHash
    rw [hrev]
  · intro ph2 hreg2 heq
    obtain ⟨hw2, hrev2⟩ := hA ph2 hreg2
    unfold getWallet at heq
    rw [heq] at hrev2
    exact hrev2.symm.trans hrev

/-- The trace backing C8's witness: two registrations and one wallet
reassignment. -/
def regWitnessOps : List RegOp :=
  [.register 1 10 5, .register 2 11 6, .update 1 12]

/-- Witness for C8's theorem: after registering identities 1 and 2 and
reassigning identity 1's wallet, identity 1 resolves to a nonzero
wallet and both round-trips close. -/
theorem registry_bijection_witness :
    getWallet (regWitnessOps.foldl regApply regInit) 1 ≠ 0 ∧
    getPhoneHash (regWitnessOps.foldl regApply regInit)
      (getWallet (regWitnessOps.foldl regApply regInit) 1) = 1 ∧
    getWallet (regWitnessOps.foldl regApply regInit)
      (getPhoneHash (regWitnessOps.foldl regApply regInit)
        (getWallet (regWitnessOps.foldl regApply regInit) 1)) =
      getWallet (regWitnessOps.foldl regApply regInit) 1 := by
  obtain ⟨a, b, c, -⟩ :=
    registry_bijection regWitnessOps (by decide) 1 (by decide)
  exact ⟨a, b, c⟩

/-- The registry state after registering the zero identity id and then
binding a second identity to the same wallet. -/
def zeroIdRegState : RegState :=
  [RegOp.register 0 10 5, RegOp.register 2 10 6].foldl regApply regInit

/-- Counterexample to C8 as stated: registering `bytes32(0)` as an
identity id makes its wallet's reverse entry the zero sentinel, so a
second registration may bind the same wallet: identities 0 and 2 are
both registered with the same owner wallet 10, so the mapping is not a
bijection (`reverseResolve (resolve 0) = 2 ≠ 0`). -/
theorem registry_zero_id_counterexample :
    zeroIdRegState.isRegistered 0 = true ∧
    zeroIdRegState.isRegistered 2 = true ∧
    getWallet zeroIdRegState 0 = getWallet zeroIdRegState 2 ∧
    getPhoneHash zeroIdRegState (getWallet zeroIdRegState 0) = 2 ∧
    (0 : Nat) ≠ 2 :=
  ⟨by decide, by decide, by decide, by decide, by decide⟩

end Ussd
